import Mathlib

set_option linter.unusedVariables false

/-!
Verification of the telemetry dispatch core of gcp-rust-tools
(src/lib.rs): the command data model, the bounded dispatch queue, the
worker loop, the authentication-refresh-and-retry protocol, and the
HTTP submission classification.

External effects are modelled as explicit parameters: the outcomes of
successive gcloud invocations and curl requests are recorded in an
environment value, the random source behind UUID generation is a
natural-number argument, and wall-clock timestamps are string or
number arguments. A counter record tracks how many times each
external routine has been invoked, so that retry-count properties can
be stated exactly.
-/

/-- Error type of src/lib.rs (enum ObservabilityError). -/
inductive ObservabilityError where
  | AuthenticationError (msg : String)
  | ApiError (msg : String)
  | SetupError (msg : String)
  | Shutdown
deriving DecidableEq

/-- Display implementation for ObservabilityError (impl Display for
ObservabilityError in src/lib.rs). -/
def ObservabilityError.display : ObservabilityError → String
  | ObservabilityError.AuthenticationError msg => "Authentication error: " ++ msg
  | ObservabilityError.ApiError msg => "API error: " ++ msg
  | ObservabilityError.SetupError msg => "Setup error: " ++ msg
  | ObservabilityError.Shutdown => "Shutdown requested"

/-- Boolean infix test on character lists. -/
def listIsInfix (pat : List Char) : List Char → Bool
  | [] => pat.isEmpty
  | c :: rest => pat.isPrefixOf (c :: rest) || listIsInfix pat rest

/-- Rust str::contains on strings: substring containment test. -/
def strContains (s pat : String) : Bool :=
  listIsInfix pat.data s.data

/-- Rust str::starts_with on strings: prefix test. -/
def strStartsWith (s pre : String) : Bool :=
  pre.data.isPrefixOf s.data

/-- Log entry data (struct LogEntry in src/lib.rs). -/
structure LogEntry where
  severity : String
  message : String
  service_name : Option String
  log_name : Option String
deriving DecidableEq

/-- LogEntry::new. -/
def LogEntry.new (severity message : String) : LogEntry :=
  { severity := severity, message := message, service_name := none, log_name := none }

/-- LogEntry::with_service_name. -/
def LogEntry.with_service_name (e : LogEntry) (service_name : String) : LogEntry :=
  { e with service_name := some service_name }

/-- LogEntry::with_log_name. -/
def LogEntry.with_log_name (e : LogEntry) (log_name : String) : LogEntry :=
  { e with log_name := some log_name }

/-- Metric data (struct MetricData in src/lib.rs). The f64 value is
modelled as a Lean Float; no claim depends on float arithmetic. The
label HashMap is modelled as an association list with unique keys. -/
structure MetricData where
  metric_type : String
  value : Float
  value_type : String
  metric_kind : String
  labels : Option (List (String × String))

/-- MetricData::new. -/
def MetricData.new (metric_type : String) (value : Float) (value_type metric_kind : String) :
    MetricData :=
  { metric_type := metric_type, value := value, value_type := value_type,
    metric_kind := metric_kind, labels := none }

/-- MetricData::with_labels. -/
def MetricData.with_labels (m : MetricData) (labels : List (String × String)) : MetricData :=
  { m with labels := some labels }

/-- Trace status (struct TraceStatus in src/lib.rs). -/
structure TraceStatus where
  code : Int
  message : Option String
deriving DecidableEq

/-- Trace span data (struct TraceSpan in src/lib.rs). SystemTime and
Duration are modelled as nanosecond counts; the attribute HashMap as an
association list. -/
structure TraceSpan where
  trace_id : String
  span_id : String
  display_name : String
  start_time : Nat
  duration : Nat
  parent_span_id : Option String
  attributes : List (String × String)
  status : Option TraceStatus
deriving DecidableEq

/-- TraceSpan::new. -/
def TraceSpan.new (trace_id span_id display_name : String) (start_time duration : Nat) :
    TraceSpan :=
  { trace_id := trace_id, span_id := span_id, display_name := display_name,
    start_time := start_time, duration := duration, parent_span_id := none,
    attributes := [], status := none }

/-- Zero-padded lowercase hexadecimal rendering, as Rust format
strings {:016x} and {:032x}: at least width digits, zero-filled. -/
def hexPad (width : Nat) (n : Nat) : String :=
  String.mk (List.replicate (width - (Nat.toDigits 16 n).length) '0') ++
    String.mk (Nat.toDigits 16 n)

/-- ObservabilityClient::generate_trace_id. The random 128-bit value
produced by Uuid::new_v4().as_u128() is the explicit argument. -/
def ObservabilityClient.generate_trace_id (uuid_bits : Nat) : String :=
  hexPad 32 uuid_bits

/-- ObservabilityClient::generate_span_id. The random 128-bit value
produced by Uuid::new_v4().as_u128() is the explicit argument; the
source masks it with 0xFFFFFFFFFFFFFFFF, that is, reduces it mod 2^64. -/
def ObservabilityClient.generate_span_id (uuid_bits : Nat) : String :=
  hexPad 16 (uuid_bits % 2 ^ 64)

/-- TraceSpan::child (src/lib.rs lines 306-317): same trace id, new
span id generated from a fresh random draw, parent span id set to the
current span's id, empty attributes, no status. -/
def TraceSpan.child (s : TraceSpan) (name : String) (start_time duration : Nat)
    (uuid_bits : Nat) : TraceSpan :=
  { trace_id := s.trace_id
    span_id := ObservabilityClient.generate_span_id uuid_bits
    parent_span_id := some s.span_id
    display_name := name
    start_time := start_time
    duration := duration
    attributes := []
    status := none }

/-- The closed set of boxed commands that travel over the channel: the
three telemetry kinds (impl Handle for LogEntry, MetricData, TraceSpan)
and the SIGTERM sentinel. -/
inductive Command where
  | log (entry : LogEntry)
  | metric (data : MetricData)
  | trace (span : TraceSpan)
  | sigterm

/-- Handle::handle for SIGTERM (src/lib.rs lines 332-340): always
returns the Shutdown error, regardless of the client argument. -/
def SIGTERM_handle : Except ObservabilityError Unit :=
  Except.error ObservabilityError.Shutdown

/-- Dispatch of Handle::handle over a dequeued command. The three
telemetry variants delegate to their send implementations, whose
outcome depends on external transport effects; that outcome is the
telemetryExec parameter. SIGTERM ignores the context entirely. -/
def dispatch_handle (telemetryExec : Command → Except ObservabilityError Unit) :
    Command → Except ObservabilityError Unit
  | Command.sigterm => SIGTERM_handle
  | c => telemetryExec c

/-- State of the crossbeam bounded channel created in
ObservabilityClient::new: the queued commands in FIFO order and
whether the receiving side (the worker) is still alive. -/
structure ChannelState where
  queue : List Command
  receiverAlive : Bool

/-- Channel capacity fixed at construction: bounded(1027). -/
def CHANNEL_CAPACITY : Nat := 1027

/-- Possible outcomes of a call to crossbeam Sender::send. -/
inductive SendOutcome where
  | accepted (st : ChannelState)
  | blocked
  | disconnected

/-- Models crossbeam_channel bounded Sender::send, the operation used
by send_log, send_metric, send_trace and shutdown: if all receivers
have been dropped it returns Err(SendError) at once; otherwise, if a
slot is free the message is enqueued at the back; otherwise the call
blocks the caller until a slot frees up or the channel disconnects
(it never returns an error merely because the queue is full). -/
def crossbeam_send (st : ChannelState) (c : Command) : SendOutcome :=
  if !st.receiverAlive then SendOutcome.disconnected
  else if st.queue.length < CHANNEL_CAPACITY then
    SendOutcome.accepted { st with queue := st.queue ++ [c] }
  else SendOutcome.blocked

/-- ObservabilityClient::send_log. -/
def send_log (st : ChannelState) (entry : LogEntry) : SendOutcome :=
  crossbeam_send st (Command.log entry)

/-- ObservabilityClient::send_metric. -/
def send_metric (st : ChannelState) (data : MetricData) : SendOutcome :=
  crossbeam_send st (Command.metric data)

/-- ObservabilityClient::send_trace. -/
def send_trace (st : ChannelState) (span : TraceSpan) : SendOutcome :=
  crossbeam_send st (Command.trace span)

/-- ObservabilityClient::shutdown. -/
def shutdown_send (st : ChannelState) : SendOutcome :=
  crossbeam_send st Command.sigterm

/-- The worker loop spawned in ObservabilityClient::new (src/lib.rs
lines 374-387), run over the sequence of commands it receives from the
channel, with exec the effect of Handle::handle on one command. The
returned list is the execution trace: the commands actually executed,
each with its result. On Ok the loop continues; on the Shutdown error
it breaks out, executing nothing further; on any other error the error
is dropped and the loop continues. -/
def worker_run (exec : Command → Except ObservabilityError Unit) :
    List Command → List (Command × Except ObservabilityError Unit)
  | [] => []
  | c :: rest =>
    match exec c with
    | Except.error ObservabilityError.Shutdown =>
      [(c, Except.error ObservabilityError.Shutdown)]
    | r => (c, r) :: worker_run exec rest

/-- Configuration fields of struct ObservabilityClient (the sending
half tx is modelled separately as ChannelState, since it is shared
mutable channel state rather than plain data). -/
structure ObservabilityClient where
  project_id : String
  service_account_path : String
  service_name : Option String

/-- Output of one external process invocation: exit-status success
flag, stdout and stderr, as captured by tokio process Command output. -/
structure CurlResult where
  execOk : Bool
  stdout : String
  stderr : String
deriving DecidableEq

/-- Environment recording the outcome of each successive external
call: the k-th gcloud auth print-access-token run (token), the k-th
gcloud auth print-identity-token run (identity), the k-th gcloud auth
activate-service-account re-run performed by refresh_authentication
(refresh), and the k-th curl invocation (curl). -/
structure Env where
  token : Nat → Except ObservabilityError String
  identity : Nat → Except ObservabilityError String
  refresh : Nat → Except ObservabilityError Unit
  curl : Nat → CurlResult

/-- How many times each external routine has been invoked so far. -/
structure Counters where
  tokenCalls : Nat
  refreshCalls : Nat
  curlCalls : Nat
  identityCalls : Nat
deriving DecidableEq

/-- Counter state before any external call. -/
def Counters.init : Counters := ⟨0, 0, 0, 0⟩

/-- One call to ObservabilityClient::get_access_token: consumes the
next access-token outcome from the environment. -/
def callToken (env : Env) (c : Counters) : Except ObservabilityError String × Counters :=
  (env.token c.tokenCalls, { c with tokenCalls := c.tokenCalls + 1 })

/-- One call to ObservabilityClient::get_identity_token_internal. -/
def callIdentity (env : Env) (c : Counters) : Except ObservabilityError String × Counters :=
  (env.identity c.identityCalls, { c with identityCalls := c.identityCalls + 1 })

/-- One call to ObservabilityClient::refresh_authentication. -/
def callRefresh (env : Env) (c : Counters) : Except ObservabilityError Unit × Counters :=
  (env.refresh c.refreshCalls, { c with refreshCalls := c.refreshCalls + 1 })

/-- One curl invocation inside execute_api_request. -/
def callCurl (env : Env) (c : Counters) : CurlResult × Counters :=
  (env.curl c.curlCalls, { c with curlCalls := c.curlCalls + 1 })

/-- The error test shared by get_access_token_with_retry and
get_identity_token: e.to_string() (the Display rendering, prefix
included) searched for the three expiry-indicating substrings. -/
def auth_error_retryable (e : ObservabilityError) : Bool :=
  strContains e.display "not logged in" || strContains e.display "authentication" ||
    strContains e.display "expired"

/-- ObservabilityClient::get_access_token_with_retry (src/lib.rs lines
542-557): fetch a token; on an error whose rendering contains one of
the expiry markers, refresh authentication and fetch exactly once
more; on any other error return it unchanged. -/
def get_access_token_with_retry (env : Env) (c : Counters) :
    Except ObservabilityError String × Counters :=
  match callToken env c with
  | (Except.ok token, c1) => (Except.ok token, c1)
  | (Except.error e, c1) =>
    if auth_error_retryable e then
      match callRefresh env c1 with
      | (Except.ok _, c2) => callToken env c2
      | (Except.error e2, c2) => (Except.error e2, c2)
    else (Except.error e, c1)

/-- ObservabilityClient::get_identity_token (src/lib.rs lines
507-522): identical retry shape over the identity-token fetch. -/
def get_identity_token (env : Env) (c : Counters) :
    Except ObservabilityError String × Counters :=
  match callIdentity env c with
  | (Except.ok token, c1) => (Except.ok token, c1)
  | (Except.error e, c1) =>
    if auth_error_retryable e then
      match callRefresh env c1 with
      | (Except.ok _, c2) => callIdentity env c2
      | (Except.error e2, c2) => (Except.error e2, c2)
    else (Except.error e, c1)

/-- Status-code extraction in execute_api_request (src/lib.rs lines
636-643): take the last three characters of the process stdout by
reversing, taking three, and reversing back. -/
def extract_status_code (s : String) : String :=
  String.mk (s.data.reverse.take 3).reverse

/-- Retry budget of execute_api_request: const MAX_RETRIES. -/
def MAX_RETRIES : Nat := 2

/-- The ApiError message built when execute_api_request gives up on a
response (src/lib.rs lines 656-659). -/
def api_error_message (operation_name : String) (r : CurlResult) : String :=
  operation_name ++ " API call failed with status " ++ extract_status_code r.stdout ++ ": " ++
    r.stderr ++ " - Response: " ++ r.stdout

/-- Three-way classification of one curl response, read off the branch
conditions of execute_api_request: success when the curl process
exited successfully and the extracted status code starts with 20 (or
equals 200, a redundant disjunct); authRetry when the status code is
exactly 401 or 403; failure otherwise. -/
inductive AttemptClass where
  | success
  | authRetry
  | failure
deriving DecidableEq

/-- Classification function for one curl response, mirroring the
conditions at src/lib.rs lines 645 and 650. -/
def attempt_classification (r : CurlResult) : AttemptClass :=
  if r.execOk && (strStartsWith (extract_status_code r.stdout) "20" ||
      extract_status_code r.stdout == "200") then AttemptClass.success
  else if extract_status_code r.stdout == "401" || extract_status_code r.stdout == "403" then
    AttemptClass.authRetry
  else AttemptClass.failure

/-- Loop body of ObservabilityClient::execute_api_request (src/lib.rs
lines 600-661). Each iteration obtains an access token (itself
retry-protected), issues one curl request, and either returns Ok,
retries after refresh_authentication when the status is 401 or 403 and
retries is below MAX_RETRIES, or fails with ApiError. The fuel
argument equals MAX_RETRIES + 1 - retries throughout, so the loop
performs at most MAX_RETRIES + 1 attempts and the fuel-zero branch is
unreachable from the entry point. -/
def execute_api_request_aux (env : Env) (operation_name : String) :
    Nat → Nat → Counters → Except ObservabilityError Unit × Counters
  | 0, _, c =>
    (Except.error (ObservabilityError.ApiError
      (operation_name ++ " API call failed: retry budget exhausted")), c)
  | fuel + 1, retries, c =>
    match get_access_token_with_retry env c with
    | (Except.error e, c1) => (Except.error e, c1)
    | (Except.ok _, c1) =>
      match callCurl env c1 with
      | (r, c2) =>
        match attempt_classification r with
        | AttemptClass.success => (Except.ok (), c2)
        | cls =>
          if cls = AttemptClass.authRetry ∧ retries < MAX_RETRIES then
            match callRefresh env c2 with
            | (Except.ok _, c3) => execute_api_request_aux env operation_name fuel (retries + 1) c3
            | (Except.error e, c3) => (Except.error e, c3)
          else (Except.error (ObservabilityError.ApiError (api_error_message operation_name r)), c2)

/-- ObservabilityClient::execute_api_request: the loop started with
retries = 0. The api_url and payload arguments are passed to curl but
never inspected by the control flow, whose outcome the environment
records. -/
def execute_api_request (env : Env) (api_url payload operation_name : String) :
    Except ObservabilityError Unit × Counters :=
  execute_api_request_aux env operation_name (MAX_RETRIES + 1) 0 Counters.init

/-- Result of launching one external process: either the spawn itself
failed (Except.error with the launch error message) or the process ran
and produced an exit-status flag, stdout and stderr. -/
structure ProcOutput where
  success : Bool
  stdout : String
  stderr : String

/-- Outcomes of the external commands that ObservabilityClient::new
runs, in program order: gcloud version, the shell gcloud installer,
gcloud auth activate-service-account, gcloud config set project, and
gcloud auth list. -/
structure InitEnv where
  gcloud_version : Except String ProcOutput
  gcloud_install : Except String ProcOutput
  auth_activate : Except String ProcOutput
  config_set_project : Except String ProcOutput
  auth_list : Except String ProcOutput

/-- ObservabilityClient::install_gcloud (src/lib.rs lines 432-452). -/
def install_gcloud (env : InitEnv) : Except ObservabilityError Unit :=
  match env.gcloud_install with
  | Except.error e =>
    Except.error (ObservabilityError.SetupError ("Failed to install gcloud: " ++ e))
  | Except.ok o =>
    if !o.success then
      Except.error (ObservabilityError.SetupError
        "Failed to install gcloud CLI. Please install manually from https://cloud.google.com/sdk/docs/install")
    else Except.ok ()

/-- ObservabilityClient::ensure_gcloud_installed (src/lib.rs lines
421-430): succeed when gcloud version runs and exits successfully,
otherwise fall back to installing. -/
def ensure_gcloud_installed (env : InitEnv) : Except ObservabilityError Unit :=
  match env.gcloud_version with
  | Except.ok o => if o.success then Except.ok () else install_gcloud env
  | Except.error _ => install_gcloud env

/-- ObservabilityClient::setup_authentication (src/lib.rs lines
454-489): activate the service account, then set the project. -/
def setup_authentication (client : ObservabilityClient) (env : InitEnv) :
    Except ObservabilityError Unit :=
  match env.auth_activate with
  | Except.error e =>
    Except.error (ObservabilityError.AuthenticationError ("Failed to run gcloud auth: " ++ e))
  | Except.ok o =>
    if !o.success then
      Except.error (ObservabilityError.AuthenticationError
        ("Failed to authenticate with service account: " ++ o.stderr))
    else
      match env.config_set_project with
      | Except.error e =>
        Except.error (ObservabilityError.AuthenticationError ("Failed to set project: " ++ e))
      | Except.ok p =>
        if !p.success then
          Except.error (ObservabilityError.AuthenticationError
            ("Failed to set project: " ++ p.stderr))
        else Except.ok ()

/-- ObservabilityClient::verify_authentication (src/lib.rs lines
491-505). -/
def verify_authentication (env : InitEnv) : Except ObservabilityError Unit :=
  match env.auth_list with
  | Except.error e =>
    Except.error (ObservabilityError.AuthenticationError ("Failed to verify auth: " ++ e))
  | Except.ok o =>
    if !o.success then
      Except.error (ObservabilityError.AuthenticationError "Authentication verification failed")
    else Except.ok ()

/-- Result of a successful construction: the client value plus the
fact that the worker thread was spawned (which in the source happens
only after the three initialization steps succeed). -/
structure ClientInit where
  client : ObservabilityClient
  workerSpawned : Bool

/-- ObservabilityClient::new (src/lib.rs lines 352-390): create the
channel, then run ensure_gcloud_installed, setup_authentication and
verify_authentication in order, propagating the first error with the
question-mark operator; only when all succeed is the worker thread
spawned and the client returned. -/
def ObservabilityClient.new (client : ObservabilityClient) (env : InitEnv) :
    Except ObservabilityError ClientInit :=
  match ensure_gcloud_installed env with
  | Except.error e => Except.error e
  | Except.ok _ =>
    match setup_authentication client env with
    | Except.error e => Except.error e
    | Except.ok _ =>
      match verify_authentication env with
      | Except.error e => Except.error e
      | Except.ok _ => Except.ok { client := client, workerSpawned := true }

/-- Shallow JSON value model for the serde_json payloads. Objects keep
fields in construction order, as the json macro lists them. -/
inductive JsonVal where
  | str (s : String)
  | num (x : Float)
  | obj (fields : List (String × JsonVal))
  | arr (elems : List JsonVal)

/-- Field lookup on a JSON object. -/
def JsonVal.getField : JsonVal → String → Option JsonVal
  | JsonVal.obj fields, key => (fields.find? (fun p => p.1 == key)).map (fun p => p.2)
  | _, _ => none

/-- Index lookup on a JSON array. -/
def JsonVal.getIndex : JsonVal → Nat → Option JsonVal
  | JsonVal.arr elems, i => elems[i]?
  | _, _ => none

/-- The log payload built by ObservabilityClient::send_log_impl
(src/lib.rs lines 665-697). The labels map gets a service_name entry
from the entry's own service name, falling back to the client default
(Option::or); the log name falls back to gcp-observability-rs; the
chrono-formatted timestamp is the timestampStr argument. -/
def send_log_payload (client : ObservabilityClient) (log_entry : LogEntry)
    (timestampStr : String) : JsonVal :=
  JsonVal.obj [("entries", JsonVal.arr [JsonVal.obj
    [ ("logName", JsonVal.str ("projects/" ++ client.project_id ++ "/logs/" ++
        log_entry.log_name.getD "gcp-observability-rs")),
      ("resource", JsonVal.obj [("type", JsonVal.str "global")]),
      ("timestamp", JsonVal.str timestampStr),
      ("severity", JsonVal.str log_entry.severity),
      ("textPayload", JsonVal.str log_entry.message),
      ("labels", JsonVal.obj (((match log_entry.service_name.or client.service_name with
          | some service => [("service_name", service)]
          | none => []) : List (String × String)).map
            (fun p => (p.1, JsonVal.str p.2)))) ]])]

/-- The metric payload built by ObservabilityClient::send_metric_impl
(src/lib.rs lines 699-727). A missing labels map becomes the empty map
via unwrap_or_default; the value field name is the lowercased value
type with Value appended. -/
def send_metric_payload (client : ObservabilityClient) (metric_data : MetricData)
    (timestampStr : String) : JsonVal :=
  JsonVal.obj [("timeSeries", JsonVal.arr [JsonVal.obj
    [ ("metric", JsonVal.obj
        [ ("type", JsonVal.str metric_data.metric_type),
          ("labels", JsonVal.obj ((metric_data.labels.getD []).map
            (fun p => (p.1, JsonVal.str p.2)))) ]),
      ("resource", JsonVal.obj [("type", JsonVal.str "global"), ("labels", JsonVal.obj [])]),
      ("points", JsonVal.arr [JsonVal.obj
        [ ("interval", JsonVal.obj [("endTime", JsonVal.str timestampStr)]),
          ("value", JsonVal.obj
            [ (metric_data.value_type.toLower ++ "Value", JsonVal.num metric_data.value) ]) ]]) ]])]

/-- C1 (evaluation at the failing input): with the channel holding its
full fixed capacity of 1027 commands and the worker still alive having
drained none, every public enqueue operation blocks the caller — the
crossbeam bounded send only waits; it does not return an error for a
full queue. The synchronous failure the claim describes happens only
once the consumer has terminated. -/
theorem send_on_full_queue_blocks :
    send_log ⟨List.replicate 1027 Command.sigterm, true⟩ (LogEntry.new "INFO" "m") =
      SendOutcome.blocked ∧
    send_metric ⟨List.replicate 1027 Command.sigterm, true⟩
      (MetricData.new "custom" 1.0 "INT64" "GAUGE") = SendOutcome.blocked ∧
    send_trace ⟨List.replicate 1027 Command.sigterm, true⟩ (TraceSpan.new "t" "s" "n" 0 0) =
      SendOutcome.blocked ∧
    shutdown_send ⟨List.replicate 1027 Command.sigterm, true⟩ = SendOutcome.blocked ∧
    send_log ⟨[], false⟩ (LogEntry.new "INFO" "m") = SendOutcome.disconnected ∧
    shutdown_send ⟨[], false⟩ = SendOutcome.disconnected := by
  refine ⟨?_, ?_, ?_, ?_, rfl, rfl⟩
  · rw [send_log, crossbeam_send, List.length_replicate]
    norm_num [CHANNEL_CAPACITY]
  · rw [send_metric, crossbeam_send, List.length_replicate]
    norm_num [CHANNEL_CAPACITY]
  · rw [send_trace, crossbeam_send, List.length_replicate]
    norm_num [CHANNEL_CAPACITY]
  · rw [shutdown_send, crossbeam_send, List.length_replicate]
    norm_num [CHANNEL_CAPACITY]

/-- C5: the worker loop processes commands one at a time in order; a
command whose execution returns Ok is followed by the rest of the
queue; the Shutdown error terminates the loop with nothing further
executed; any other error is discarded and the loop continues with the
next command; and the SIGTERM command always produces the Shutdown
error regardless of context. -/
theorem worker_loop_behavior (exec : Command → Except ObservabilityError Unit)
    (c : Command) (rest : List Command) :
    (exec c = Except.ok () →
      worker_run exec (c :: rest) = (c, Except.ok ()) :: worker_run exec rest) ∧
    (exec c = Except.error ObservabilityError.Shutdown →
      worker_run exec (c :: rest) = [(c, Except.error ObservabilityError.Shutdown)]) ∧
    (∀ e, exec c = Except.error e → e ≠ ObservabilityError.Shutdown →
      worker_run exec (c :: rest) = (c, Except.error e) :: worker_run exec rest) ∧
    (∀ te, dispatch_handle te Command.sigterm = Except.error ObservabilityError.Shutdown) := by
  refine ⟨?_, ?_, ?_, fun te => rfl⟩
  · intro h
    simp [worker_run, h]
  · intro h
    simp [worker_run, h]
  · intro e h hne
    cases e with
    | AuthenticationError m => simp [worker_run, h]
    | ApiError m => simp [worker_run, h]
    | SetupError m => simp [worker_run, h]
    | Shutdown => exact absurd rfl hne

/-- C5 witness: a SIGTERM at the head of the queue terminates the
worker loop immediately, dropping the queued log entry behind it. -/
theorem worker_loop_behavior_witness :
    worker_run (dispatch_handle (fun _ => Except.ok ()))
        (Command.sigterm :: [Command.log (LogEntry.new "INFO" "x")]) =
      [(Command.sigterm, Except.error ObservabilityError.Shutdown)] :=
  (worker_loop_behavior (dispatch_handle (fun _ => Except.ok ()))
    Command.sigterm [Command.log (LogEntry.new "INFO" "x")]).2.1 rfl

/-- C7: construction runs tool setup, credential installation together
with project binding, and verification strictly in order; the first
failing step's error is returned as the result of new, and only when
all three succeed does new return a client, with the worker spawned
after the checks. -/
theorem client_new_sequential_atomic (client : ObservabilityClient) (env : InitEnv) :
    (∀ e, ensure_gcloud_installed env = Except.error e →
      ObservabilityClient.new client env = Except.error e) ∧
    (∀ e, ensure_gcloud_installed env = Except.ok () →
      setup_authentication client env = Except.error e →
      ObservabilityClient.new client env = Except.error e) ∧
    (∀ e, ensure_gcloud_installed env = Except.ok () →
      setup_authentication client env = Except.ok () →
      verify_authentication env = Except.error e →
      ObservabilityClient.new client env = Except.error e) ∧
    (ensure_gcloud_installed env = Except.ok () →
      setup_authentication client env = Except.ok () →
      verify_authentication env = Except.ok () →
      ObservabilityClient.new client env =
        Except.ok { client := client, workerSpawned := true }) := by
  refine ⟨?_, ?_, ?_, ?_⟩
  · intro e h
    simp [ObservabilityClient.new, h]
  · intro e h1 h2
    simp [ObservabilityClient.new, h1, h2]
  · intro e h1 h2 h3
    simp [ObservabilityClient.new, h1, h2, h3]
  · intro h1 h2 h3
    simp [ObservabilityClient.new, h1, h2, h3]

/-- C7 witness: with every external command succeeding, construction
returns the client with the worker spawned. -/
theorem client_new_sequential_atomic_witness :
    ObservabilityClient.new ⟨"proj", "/k.json", none⟩
        ⟨Except.ok ⟨true, "", ""⟩, Except.ok ⟨true, "", ""⟩, Except.ok ⟨true, "", ""⟩,
          Except.ok ⟨true, "", ""⟩, Except.ok ⟨true, "", ""⟩⟩ =
      Except.ok { client := ⟨"proj", "/k.json", none⟩, workerSpawned := true } :=
  (client_new_sequential_atomic ⟨"proj", "/k.json", none⟩
    ⟨Except.ok ⟨true, "", ""⟩, Except.ok ⟨true, "", ""⟩, Except.ok ⟨true, "", ""⟩,
      Except.ok ⟨true, "", ""⟩, Except.ok ⟨true, "", ""⟩⟩).2.2.2 rfl rfl rfl

/-- C8 counterexample: the child's span id is a fresh random draw, so
it is not guaranteed distinct from the parent's span id — when the
random 128-bit value behind the child's generate_span_id call repeats
the draw that produced the parent's span id, the two ids coincide. -/
theorem trace_span_child_collision :
    ((TraceSpan.new "tid" (ObservabilityClient.generate_span_id 7) "root" 0 0).child
        "op" 0 0 7).span_id =
      (TraceSpan.new "tid" (ObservabilityClient.generate_span_id 7) "root" 0 0).span_id := rfl

/-- C8 (amended): child keeps the parent's trace id, sets
parent_span_id to the parent's span id, and takes as span id the
generate_span_id rendering of a fresh random draw — which is distinct
from the parent's span id whenever that rendering differs from it
(always except for a colliding draw). -/
theorem trace_span_child_fields (s : TraceSpan) (name : String) (st du u : Nat)
    (hdistinct : ObservabilityClient.generate_span_id u ≠ s.span_id) :
    (s.child name st du u).trace_id = s.trace_id ∧
    (s.child name st du u).parent_span_id = some s.span_id ∧
    (s.child name st du u).span_id = ObservabilityClient.generate_span_id u ∧
    (s.child name st du u).span_id ≠ s.span_id :=
  ⟨rfl, rfl, rfl, hdistinct⟩

/-- C8 witness: a concrete child span with a non-colliding draw. -/
theorem trace_span_child_fields_witness :
    ((TraceSpan.new "tid" "aaaa000011112222" "root" 0 0).child "op" 3 4 9).trace_id = "tid" ∧
    ((TraceSpan.new "tid" "aaaa000011112222" "root" 0 0).child "op" 3 4 9).parent_span_id =
      some "aaaa000011112222" ∧
    ((TraceSpan.new "tid" "aaaa000011112222" "root" 0 0).child "op" 3 4 9).span_id =
      ObservabilityClient.generate_span_id 9 ∧
    ((TraceSpan.new "tid" "aaaa000011112222" "root" 0 0).child "op" 3 4 9).span_id ≠
      "aaaa000011112222" :=
  trace_span_child_fields (TraceSpan.new "tid" "aaaa000011112222" "root" 0 0) "op" 3 4 9
    (by decide)

/-- C9: a log entry without a service name takes the client's default
service name in the emitted labels, and a metric without labels emits
an empty labels mapping under metric.labels — the field is present,
not absent. -/
theorem payload_defaults (client : ObservabilityClient) (e : LogEntry) (m : MetricData)
    (ts : String) (s : String)
    (hsn : e.service_name = none) (hcs : client.service_name = some s)
    (hml : m.labels = none) :
    (((send_log_payload client e ts).getField "entries").bind
        (fun v => v.getIndex 0)).bind (fun v => v.getField "labels") =
      some (JsonVal.obj [("service_name", JsonVal.str s)]) ∧
    (((((send_metric_payload client m ts).getField "timeSeries").bind
        (fun v => v.getIndex 0)).bind (fun v => v.getField "metric")).bind
          (fun v => v.getField "labels")) =
      some (JsonVal.obj []) := by
  constructor
  · simp only [send_log_payload, hsn, hcs]
    rfl
  · simp only [send_metric_payload, hml]
    rfl

/-- C9 witness: concrete entry and metric exercising both defaults. -/
theorem payload_defaults_witness :
    (((send_log_payload ⟨"p", "/k", some "svc"⟩ (LogEntry.new "INFO" "hello") "T").getField
        "entries").bind (fun v => v.getIndex 0)).bind (fun v => v.getField "labels") =
      some (JsonVal.obj [("service_name", JsonVal.str "svc")]) ∧
    (((((send_metric_payload ⟨"p", "/k", some "svc"⟩
        (MetricData.new "custom" 1.0 "INT64" "GAUGE") "T").getField "timeSeries").bind
          (fun v => v.getIndex 0)).bind (fun v => v.getField "metric")).bind
            (fun v => v.getField "labels")) =
      some (JsonVal.obj []) :=
  payload_defaults ⟨"p", "/k", some "svc"⟩ (LogEntry.new "INFO" "hello")
    (MetricData.new "custom" 1.0 "INT64" "GAUGE") "T" "svc" rfl rfl rfl

/-- Helper: when the token fetch at the current index succeeds,
get_access_token_with_retry returns it and consumes one token call. -/
theorem gat_ok (env : Env) (c : Counters) (t : String)
    (ht : env.token c.tokenCalls = Except.ok t) :
    get_access_token_with_retry env c =
      (Except.ok t, { c with tokenCalls := c.tokenCalls + 1 }) := by
  simp [get_access_token_with_retry, callToken, ht]

/-- Helper: a 401 or 403 status code classifies the response as an
authentication retry, whatever the curl exit status. -/
theorem classification_auth (r : CurlResult)
    (h : extract_status_code r.stdout = "401" ∨ extract_status_code r.stdout = "403") :
    attempt_classification r = AttemptClass.authRetry := by
  rcases h with h | h <;> rw [attempt_classification, h] <;> simp [strStartsWith]

/-- Helper: a successful curl exit with a status code starting in 20
classifies the response as success. -/
theorem classification_success (r : CurlResult) (hok : r.execOk = true)
    (h20 : strStartsWith (extract_status_code r.stdout) "20" = true) :
    attempt_classification r = AttemptClass.success := by
  rw [attempt_classification, hok, h20]
  simp

/-- Helper: a success-classified attempt ends the loop with Ok. -/
theorem aux_step_success (env : Env) (op : String) (fuel retries : Nat) (c : Counters)
    (t : String) (ht : env.token c.tokenCalls = Except.ok t)
    (hc : attempt_classification (env.curl c.curlCalls) = AttemptClass.success) :
    execute_api_request_aux env op (fuel + 1) retries c =
      (Except.ok (), ⟨c.tokenCalls + 1, c.refreshCalls, c.curlCalls + 1, c.identityCalls⟩) := by
  simp [execute_api_request_aux, gat_ok env c t ht, callCurl, hc]

/-- Helper: a failure-classified attempt ends the loop with the
ApiError message naming the operation, status code and response. -/
theorem aux_step_failure (env : Env) (op : String) (fuel retries : Nat) (c : Counters)
    (t : String) (ht : env.token c.tokenCalls = Except.ok t)
    (hc : attempt_classification (env.curl c.curlCalls) = AttemptClass.failure) :
    execute_api_request_aux env op (fuel + 1) retries c =
      (Except.error (ObservabilityError.ApiError (api_error_message op (env.curl c.curlCalls))),
        ⟨c.tokenCalls + 1, c.refreshCalls, c.curlCalls + 1, c.identityCalls⟩) := by
  simp [execute_api_request_aux, gat_ok env c t ht, callCurl, hc]

/-- Helper: an authRetry-classified attempt with retry budget left and
a successful refresh continues the loop with retries incremented. -/
theorem aux_step_retry (env : Env) (op : String) (fuel retries : Nat) (c : Counters)
    (t : String) (hret : retries < MAX_RETRIES)
    (ht : env.token c.tokenCalls = Except.ok t)
    (hc : attempt_classification (env.curl c.curlCalls) = AttemptClass.authRetry)
    (hr : env.refresh c.refreshCalls = Except.ok ()) :
    execute_api_request_aux env op (fuel + 1) retries c =
      execute_api_request_aux env op fuel (retries + 1)
        ⟨c.tokenCalls + 1, c.refreshCalls + 1, c.curlCalls + 1, c.identityCalls⟩ := by
  simp [execute_api_request_aux, gat_ok env c t ht, callCurl, callRefresh, hc, hret, hr]

/-- Helper: an authRetry-classified attempt with the retry budget
exhausted ends the loop with the ApiError message. -/
theorem aux_step_retry_exhausted (env : Env) (op : String) (fuel retries : Nat) (c : Counters)
    (t : String) (hret : ¬retries < MAX_RETRIES)
    (ht : env.token c.tokenCalls = Except.ok t)
    (hc : attempt_classification (env.curl c.curlCalls) = AttemptClass.authRetry) :
    execute_api_request_aux env op (fuel + 1) retries c =
      (Except.error (ObservabilityError.ApiError (api_error_message op (env.curl c.curlCalls))),
        ⟨c.tokenCalls + 1, c.refreshCalls, c.curlCalls + 1, c.identityCalls⟩) := by
  simp [execute_api_request_aux, gat_ok env c t ht, callCurl, hc, hret]

/-- C2: when every one of the MAX_RETRIES + 1 = 3 attempts comes back
with status 401 or 403 (and tokens and refreshes succeed), submission
fails with the ApiError message carrying the operation name, the
status code and the response body of the final attempt, and
refresh_authentication runs exactly MAX_RETRIES = 2 times. -/
theorem execute_api_request_persistent_auth_failure (env : Env) (u p op : String)
    (htok : ∀ k, k < 3 → ∃ t, env.token k = Except.ok t)
    (href : ∀ k, k < 2 → env.refresh k = Except.ok ())
    (hcurl : ∀ k, k < 3 → extract_status_code (env.curl k).stdout = "401" ∨
      extract_status_code (env.curl k).stdout = "403") :
    execute_api_request env u p op =
      (Except.error (ObservabilityError.ApiError (api_error_message op (env.curl 2))),
        ⟨3, 2, 3, 0⟩) := by
  obtain ⟨t0, ht0⟩ := htok 0 (by norm_num)
  obtain ⟨t1, ht1⟩ := htok 1 (by norm_num)
  obtain ⟨t2, ht2⟩ := htok 2 (by norm_num)
  have h1 : execute_api_request env u p op = execute_api_request_aux env op 2 1 ⟨1, 1, 1, 0⟩ :=
    aux_step_retry env op MAX_RETRIES 0 ⟨0, 0, 0, 0⟩ t0 (by decide) ht0
      (classification_auth (env.curl 0) (hcurl 0 (by norm_num))) (href 0 (by norm_num))
  have h2 : execute_api_request_aux env op 2 1 ⟨1, 1, 1, 0⟩ =
      execute_api_request_aux env op 1 2 ⟨2, 2, 2, 0⟩ :=
    aux_step_retry env op 1 1 ⟨1, 1, 1, 0⟩ t1 (by decide) ht1
      (classification_auth (env.curl 1) (hcurl 1 (by norm_num))) (href 1 (by norm_num))
  have h3 : execute_api_request_aux env op 1 2 ⟨2, 2, 2, 0⟩ =
      (Except.error (ObservabilityError.ApiError (api_error_message op (env.curl 2))),
        ⟨3, 2, 3, 0⟩) :=
    aux_step_retry_exhausted env op 0 2 ⟨2, 2, 2, 0⟩ t2 (by decide) ht2
      (classification_auth (env.curl 2) (hcurl 2 (by norm_num)))
  exact (h1.trans h2).trans h3

/-- C2 witness: an environment answering 403 on every attempt. -/
theorem execute_api_request_persistent_auth_failure_witness :
    execute_api_request
        ⟨fun _ => Except.ok "tok", fun _ => Except.ok "tok", fun _ => Except.ok (),
          fun _ => ⟨true, "deny403", "forbidden"⟩⟩ "u" "p" "Logging" =
      (Except.error (ObservabilityError.ApiError (api_error_message "Logging"
        ⟨true, "deny403", "forbidden"⟩)), ⟨3, 2, 3, 0⟩) :=
  execute_api_request_persistent_auth_failure
    ⟨fun _ => Except.ok "tok", fun _ => Except.ok "tok", fun _ => Except.ok (),
      fun _ => ⟨true, "deny403", "forbidden"⟩⟩ "u" "p" "Logging"
    (fun k _ => ⟨"tok", rfl⟩) (fun k _ => rfl) (fun k _ => Or.inr rfl)

/-- C6: a 401 on the first attempt followed by a 200 on the second
returns Ok with refresh_authentication invoked exactly once. -/
theorem execute_api_request_401_then_200 (env : Env) (u p op : String)
    (ht0 : ∃ t, env.token 0 = Except.ok t) (ht1 : ∃ t, env.token 1 = Except.ok t)
    (hr0 : env.refresh 0 = Except.ok ())
    (hc0 : extract_status_code (env.curl 0).stdout = "401")
    (hc1ok : (env.curl 1).execOk = true)
    (hc1 : extract_status_code (env.curl 1).stdout = "200") :
    execute_api_request env u p op = (Except.ok (), ⟨2, 1, 2, 0⟩) := by
  obtain ⟨t0, h0⟩ := ht0
  obtain ⟨t1, h1⟩ := ht1
  have s1 : execute_api_request env u p op = execute_api_request_aux env op 2 1 ⟨1, 1, 1, 0⟩ :=
    aux_step_retry env op MAX_RETRIES 0 ⟨0, 0, 0, 0⟩ t0 (by decide) h0
      (classification_auth (env.curl 0) (Or.inl hc0)) hr0
  have s2 : execute_api_request_aux env op 2 1 ⟨1, 1, 1, 0⟩ = (Except.ok (), ⟨2, 1, 2, 0⟩) :=
    aux_step_success env op 1 1 ⟨1, 1, 1, 0⟩ t1 h1
      (classification_success (env.curl 1) hc1ok (by rw [hc1]; rfl))
  exact s1.trans s2

/-- C6 witness: first attempt 401, second attempt 200. -/
theorem execute_api_request_401_then_200_witness :
    execute_api_request
        ⟨fun _ => Except.ok "tok", fun _ => Except.ok "tok", fun _ => Except.ok (),
          fun k => if k = 0 then ⟨true, "no401", ""⟩ else ⟨true, "ok200", ""⟩⟩
        "u" "p" "Monitoring" =
      (Except.ok (), ⟨2, 1, 2, 0⟩) :=
  execute_api_request_401_then_200
    ⟨fun _ => Except.ok "tok", fun _ => Except.ok "tok", fun _ => Except.ok (),
      fun k => if k = 0 then ⟨true, "no401", ""⟩ else ⟨true, "ok200", ""⟩⟩
    "u" "p" "Monitoring" ⟨"tok", rfl⟩ ⟨"tok", rfl⟩ rfl rfl rfl rfl

/-- Helper: the success test's second disjunct is redundant, since a
status code equal to 200 in particular starts with 20. -/
theorem success_cond_collapse (sc : String) :
    (strStartsWith sc "20" || sc == "200") = strStartsWith sc "20" := by
  cases h : sc == "200"
  · rw [Bool.or_false]
  · have hs : sc = "200" := eq_of_beq h
    subst hs
    rfl

/-- Helper: an attempt classifies as success exactly when the curl
process exited successfully and the extracted status code starts with
20. -/
theorem classification_success_iff (r : CurlResult) :
    attempt_classification r = AttemptClass.success ↔
      (r.execOk = true ∧ strStartsWith (extract_status_code r.stdout) "20" = true) := by
  rw [attempt_classification, success_cond_collapse]
  constructor
  · intro h
    by_cases hcond : (r.execOk && strStartsWith (extract_status_code r.stdout) "20") = true
    · simp only [Bool.and_eq_true] at hcond
      exact hcond
    · rw [if_neg hcond] at h
      split at h <;> simp at h
  · rintro ⟨h1, h2⟩
    rw [h1, h2]
    rfl

/-- C3 counterexample: status 226 is a 2xx status, yet a response
carrying it — with the transport call itself succeeding — is rejected
with ApiError rather than accepted, because 226 does not begin with
the two characters 20. -/
theorem execute_api_request_rejects_226 :
    (execute_api_request
        ⟨fun _ => Except.ok "tok", fun _ => Except.ok "tok", fun _ => Except.ok (),
          fun _ => ⟨true, "resp226", ""⟩⟩ "u" "p" "Tracing").1 =
      Except.error (ObservabilityError.ApiError
        (api_error_message "Tracing" ⟨true, "resp226", ""⟩)) ∧
    extract_status_code "resp226" = "226" ∧ 200 ≤ 226 ∧ 226 ≤ 299 := by
  exact ⟨rfl, rfl, by norm_num, by norm_num⟩

/-- C3 (amended): with token fetches and refreshes succeeding, submit
returns Ok exactly when some attempt within the retry budget is
classified a success, every earlier attempt having been a retried 401
or 403; an attempt classifies as success exactly when the transport
call itself succeeded and the extracted status code begins with 20 —
which covers 200 through 209 but not every 2xx status; and a first
response classified neither success nor 401/403 yields the ApiError at
once, with no retry and no refresh. -/
theorem execute_api_request_ok_iff (env : Env) (u p op : String)
    (htok : ∀ k, ∃ t, env.token k = Except.ok t)
    (href : ∀ k, env.refresh k = Except.ok ()) :
    ((execute_api_request env u p op).1 = Except.ok () ↔
      ∃ k, k ≤ MAX_RETRIES ∧ attempt_classification (env.curl k) = AttemptClass.success ∧
        ∀ j, j < k → attempt_classification (env.curl j) = AttemptClass.authRetry) ∧
    (∀ r : CurlResult, attempt_classification r = AttemptClass.success ↔
      (r.execOk = true ∧ strStartsWith (extract_status_code r.stdout) "20" = true)) ∧
    (attempt_classification (env.curl 0) = AttemptClass.failure →
      execute_api_request env u p op =
        (Except.error (ObservabilityError.ApiError (api_error_message op (env.curl 0))),
          ⟨1, 0, 1, 0⟩)) := by
  obtain ⟨t0, ht0⟩ := htok 0
  obtain ⟨t1, ht1⟩ := htok 1
  obtain ⟨t2, ht2⟩ := htok 2
  refine ⟨?_, classification_success_iff, ?_⟩
  · cases h0 : attempt_classification (env.curl 0) with
    | success =>
      have hres : execute_api_request env u p op = (Except.ok (), ⟨1, 0, 1, 0⟩) :=
        aux_step_success env op MAX_RETRIES 0 ⟨0, 0, 0, 0⟩ t0 ht0 h0
      rw [hres]
      exact iff_of_true rfl ⟨0, by decide, h0, fun j hj => absurd hj (Nat.not_lt_zero j)⟩
    | failure =>
      have hres : execute_api_request env u p op =
          (Except.error (ObservabilityError.ApiError (api_error_message op (env.curl 0))),
            ⟨1, 0, 1, 0⟩) :=
        aux_step_failure env op MAX_RETRIES 0 ⟨0, 0, 0, 0⟩ t0 ht0 h0
      rw [hres]
      refine iff_of_false (by simp) ?_
      rintro ⟨k, hk, hsucc, hprev⟩
      have hk2 : k ≤ 2 := hk
      interval_cases k
      · rw [h0] at hsucc
        simp at hsucc
      · have := hprev 0 (by norm_num)
        rw [h0] at this
        simp at this
      · have := hprev 0 (by norm_num)
        rw [h0] at this
        simp at this
    | authRetry =>
      have hs1 : execute_api_request env u p op =
          execute_api_request_aux env op 2 1 ⟨1, 1, 1, 0⟩ :=
        aux_step_retry env op MAX_RETRIES 0 ⟨0, 0, 0, 0⟩ t0 (by decide) ht0 h0 (href 0)
      cases h1 : attempt_classification (env.curl 1) with
      | success =>
        have hres : execute_api_request_aux env op 2 1 ⟨1, 1, 1, 0⟩ =
            (Except.ok (), ⟨2, 1, 2, 0⟩) :=
          aux_step_success env op 1 1 ⟨1, 1, 1, 0⟩ t1 ht1 h1
        rw [hs1, hres]
        refine iff_of_true rfl ⟨1, by decide, h1, ?_⟩
        intro j hj
        interval_cases j
        exact h0
      | failure =>
        have hres : execute_api_request_aux env op 2 1 ⟨1, 1, 1, 0⟩ =
            (Except.error (ObservabilityError.ApiError (api_error_message op (env.curl 1))),
              ⟨2, 1, 2, 0⟩) :=
          aux_step_failure env op 1 1 ⟨1, 1, 1, 0⟩ t1 ht1 h1
        rw [hs1, hres]
        refine iff_of_false (by simp) ?_
        rintro ⟨k, hk, hsucc, hprev⟩
        have hk2 : k ≤ 2 := hk
        interval_cases k
        · rw [h0] at hsucc
          simp at hsucc
        · rw [h1] at hsucc
          simp at hsucc
        · have := hprev 1 (by norm_num)
          rw [h1] at this
          simp at this
      | authRetry =>
        have hs2 : execute_api_request_aux env op 2 1 ⟨1, 1, 1, 0⟩ =
            execute_api_request_aux env op 1 2 ⟨2, 2, 2, 0⟩ :=
          aux_step_retry env op 1 1 ⟨1, 1, 1, 0⟩ t1 (by decide) ht1 h1 (href 1)
        cases h2 : attempt_classification (env.curl 2) with
        | success =>
          have hres : execute_api_request_aux env op 1 2 ⟨2, 2, 2, 0⟩ =
              (Except.ok (), ⟨3, 2, 3, 0⟩) :=
            aux_step_success env op 0 2 ⟨2, 2, 2, 0⟩ t2 ht2 h2
          rw [hs1, hs2, hres]
          refine iff_of_true rfl ⟨2, by decide, h2, ?_⟩
          intro j hj
          interval_cases j
          · exact h0
          · exact h1
        | failure =>
          have hres : execute_api_request_aux env op 1 2 ⟨2, 2, 2, 0⟩ =
              (Except.error (ObservabilityError.ApiError (api_error_message op (env.curl 2))),
                ⟨3, 2, 3, 0⟩) :=
            aux_step_failure env op 0 2 ⟨2, 2, 2, 0⟩ t2 ht2 h2
          rw [hs1, hs2, hres]
          refine iff_of_false (by simp) ?_
          rintro ⟨k, hk, hsucc, hprev⟩
          have hk2 : k ≤ 2 := hk
          interval_cases k
          · rw [h0] at hsucc
            simp at hsucc
          · rw [h1] at hsucc
            simp at hsucc
          · rw [h2] at hsucc
            simp at hsucc
        | authRetry =>
          have hres : execute_api_request_aux env op 1 2 ⟨2, 2, 2, 0⟩ =
              (Except.error (ObservabilityError.ApiError (api_error_message op (env.curl 2))),
                ⟨3, 2, 3, 0⟩) :=
            aux_step_retry_exhausted env op 0 2 ⟨2, 2, 2, 0⟩ t2 (by decide) ht2 h2
          rw [hs1, hs2, hres]
          refine iff_of_false (by simp) ?_
          rintro ⟨k, hk, hsucc, hprev⟩
          have hk2 : k ≤ 2 := hk
          interval_cases k
          · rw [h0] at hsucc
            simp at hsucc
          · rw [h1] at hsucc
            simp at hsucc
          · rw [h2] at hsucc
            simp at hsucc
  · intro hf
    exact aux_step_failure env op MAX_RETRIES 0 ⟨0, 0, 0, 0⟩ t0 ht0 hf

/-- C3 witness: a 204 response on the first attempt is accepted. -/
theorem execute_api_request_ok_iff_witness :
    (execute_api_request
        ⟨fun _ => Except.ok "tok", fun _ => Except.ok "tok", fun _ => Except.ok (),
          fun _ => ⟨true, "done204", ""⟩⟩ "u" "p" "Logging").1 = Except.ok () := by
  have h := execute_api_request_ok_iff
    ⟨fun _ => Except.ok "tok", fun _ => Except.ok "tok", fun _ => Except.ok (),
      fun _ => ⟨true, "done204", ""⟩⟩ "u" "p" "Logging"
    (fun k => ⟨"tok", rfl⟩) (fun k => rfl)
  exact h.1.mpr ⟨0, by decide, by decide, fun j hj => absurd hj (Nat.not_lt_zero j)⟩

/-- Boolean discriminator for the ApiError constructor on token-fetch
results. -/
def is_api_error : Except ObservabilityError String → Bool
  | Except.error (ObservabilityError.ApiError _) => true
  | _ => false

/-- C4 counterexample: a first token fetch failing with a message that
contains none of the three markers surfaces immediately — but as the
original error kind (here AuthenticationError), not as ApiError as the
claim states; no refresh happens. -/
theorem token_retry_keeps_error_kind :
    get_access_token_with_retry
        ⟨fun _ => Except.error (ObservabilityError.AuthenticationError
            "Failed to get access token: permission denied"),
          fun _ => Except.ok "id", fun _ => Except.ok (),
          fun _ => ⟨true, "ok200", ""⟩⟩ Counters.init =
      (Except.error (ObservabilityError.AuthenticationError
        "Failed to get access token: permission denied"), ⟨1, 0, 0, 0⟩) ∧
    is_api_error (Except.error (ObservabilityError.AuthenticationError
      "Failed to get access token: permission denied")) = false ∧
    auth_error_retryable (ObservabilityError.AuthenticationError
      "Failed to get access token: permission denied") = false := by
  exact ⟨rfl, rfl, rfl⟩

/-- C4 (amended): for both token acquisition routines, a first fetch
failing with a message containing one of the markers not logged in,
authentication or expired triggers one refresh and exactly one more
fetch, whose result is returned; a first failure containing none of
the markers surfaces immediately and unchanged — retaining its
original error kind — with no refresh and no retry. -/
theorem token_fetch_retry_behavior (env : Env) (c : Counters) :
    (∀ e, env.token c.tokenCalls = Except.error e → auth_error_retryable e = true →
      env.refresh c.refreshCalls = Except.ok () →
      get_access_token_with_retry env c =
        (env.token (c.tokenCalls + 1),
          ⟨c.tokenCalls + 1 + 1, c.refreshCalls + 1, c.curlCalls, c.identityCalls⟩)) ∧
    (∀ e, env.token c.tokenCalls = Except.error e → auth_error_retryable e = false →
      get_access_token_with_retry env c =
        (Except.error e, ⟨c.tokenCalls + 1, c.refreshCalls, c.curlCalls, c.identityCalls⟩)) ∧
    (∀ e, env.identity c.identityCalls = Except.error e → auth_error_retryable e = true →
      env.refresh c.refreshCalls = Except.ok () →
      get_identity_token env c =
        (env.identity (c.identityCalls + 1),
          ⟨c.tokenCalls, c.refreshCalls + 1, c.curlCalls, c.identityCalls + 1 + 1⟩)) ∧
    (∀ e, env.identity c.identityCalls = Except.error e → auth_error_retryable e = false →
      get_identity_token env c =
        (Except.error e, ⟨c.tokenCalls, c.refreshCalls, c.curlCalls, c.identityCalls + 1⟩)) := by
  refine ⟨?_, ?_, ?_, ?_⟩
  · intro e h1 h2 h3
    simp [get_access_token_with_retry, callToken, callRefresh, h1, h2, h3]
  · intro e h1 h2
    simp [get_access_token_with_retry, callToken, h1, h2]
  · intro e h1 h2 h3
    simp [get_identity_token, callIdentity, callRefresh, h1, h2, h3]
  · intro e h1 h2
    simp [get_identity_token, callIdentity, h1, h2]

/-- C4 witness: a first fetch failing with an expired marker is
refreshed and retried once, returning the fresh token. -/
theorem token_fetch_retry_behavior_witness :
    get_access_token_with_retry
        ⟨fun k => if k = 0 then Except.error (ObservabilityError.AuthenticationError
            "Failed to get access token: token expired") else Except.ok "fresh",
          fun _ => Except.ok "id", fun _ => Except.ok (),
          fun _ => ⟨true, "ok200", ""⟩⟩ Counters.init =
      (Except.ok "fresh", ⟨2, 1, 0, 0⟩) :=
  (token_fetch_retry_behavior
    ⟨fun k => if k = 0 then Except.error (ObservabilityError.AuthenticationError
        "Failed to get access token: token expired") else Except.ok "fresh",
      fun _ => Except.ok "id", fun _ => Except.ok (),
      fun _ => ⟨true, "ok200", ""⟩⟩ Counters.init).1
    (ObservabilityError.AuthenticationError "Failed to get access token: token expired")
    rfl rfl rfl

/-- C10: the status code is the last three characters of the process
stdout; for responses whose transport-call outcome agrees, the
success/retry/error classification depends only on that trailing
three-character substring; and a response whose combined output ends
in characters starting with 20, the transport call succeeding, is
classified a success. -/
theorem status_code_last_three :
    (∀ s : String, extract_status_code s = String.mk (s.data.drop (s.data.length - 3))) ∧
    (∀ r q : CurlResult, r.execOk = q.execOk →
      extract_status_code r.stdout = extract_status_code q.stdout →
      attempt_classification r = attempt_classification q) ∧
    (∀ r : CurlResult, r.execOk = true →
      strStartsWith (extract_status_code r.stdout) "20" = true →
      attempt_classification r = AttemptClass.success) := by
  refine ⟨?_, ?_, ?_⟩
  · intro s
    rw [extract_status_code, ← List.rtake_eq_reverse_take_reverse]
    rfl
  · intro r q hok hsc
    rw [attempt_classification, attempt_classification, hok, hsc]
  · intro r hok h20
    exact classification_success r hok h20

/-- C10 witness: concrete responses exercising extraction, dependence
on the trailing three characters only, and 20x acceptance. -/
theorem status_code_last_three_witness :
    extract_status_code "abc200" = "200" ∧
    attempt_classification ⟨true, "x204", ""⟩ = attempt_classification ⟨true, "y204", ""⟩ ∧
    attempt_classification ⟨true, "z207", ""⟩ = AttemptClass.success :=
  ⟨(status_code_last_three.1 "abc200").trans rfl,
    status_code_last_three.2.1 ⟨true, "x204", ""⟩ ⟨true, "y204", ""⟩ rfl rfl,
    status_code_last_three.2.2 ⟨true, "z207", ""⟩ rfl rfl⟩
